import Mathlib

/-!
Shallow embedding of `mrjob/fs/s3.py` (the S3 filesystem of mrjob) and
verification of the specification's claims about it.

Conventions of the embedding:

* Python exceptions become the inductive type `PyErr`; fallible operations
  return `Except PyErr _`.
* The remote object store is modelled by `S3World`: per-bucket outcomes of the
  `get_bucket_location` metadata call, per-bucket outcomes of the prefix-scan
  listing, and a map from (bucket, key) to object size (the outcome of a
  per-object HEAD/`get_key` lookup).
* Client-library calls (boto / boto3) are external collaborators; each call is
  modelled by its documented contract, looked up in the `S3World`.
* Helper functions of this repository that are imported by `s3.py` but whose
  source is not part of this snapshot (`parse_s3_uri`, `is_uri`, `GLOB_RE`,
  the mrjob.aws region constants) are modelled from the spec; each such
  definition says so in its doc comment.
* String manipulation is done by structurally recursive functions over
  `List Char` so that every definition reduces inside the kernel.
-/

/-- Errors raised by boto3 client calls: `botocore.exceptions.ClientError`
(carrying the `Error.Code` string and optional `Error.HTTPStatusCode`), and
low-level `socket.error` (carrying `args = (errno, message)`). -/
inductive ServiceErr where
  | clientError (code : String) (status : Option Int)
  | socketError (errno : Int) (msg : String)
  deriving DecidableEq, Repr

/-- The Python exceptions that appear in `mrjob/fs/s3.py`. -/
inductive PyErr where
  /-- an error raised by a boto3 client call -/
  | service (e : ServiceErr)
  /-- `boto.exception.S3ResponseError` (old boto library; the boto3 code paths
  never raise it, but two `except` clauses in the source test for it) -/
  | s3ResponseError (status : Int)
  /-- `NameError`: reading an unbound variable -/
  | nameError (n : String)
  /-- `AttributeError`: e.g. `None.size` -/
  | attributeError (msg : String)
  /-- `OSError`, as raised by `touchz` on conflict -/
  | osError (msg : String)
  /-- `ValueError`, as raised by `parse_s3_uri` on a non-S3 URI -/
  | valueError (msg : String)
  deriving DecidableEq, Repr

deriving instance DecidableEq for Except

/-! ### Kernel-computable string helpers -/

/-- `listIsStartOf p s`: the characters `p` are a leading run of `s`. -/
def listIsStartOf : List Char → List Char → Bool
  | [], _ => true
  | _ :: _, [] => false
  | p :: ps, c :: cs => p == c && listIsStartOf ps cs

/-- `strStartsWith s p`: `p` is a leading run of `s` (Python `s.startswith(p)`). -/
def strStartsWith (s p : String) : Bool := listIsStartOf p.data s.data

/-- `strEndsWith s p`: `p` is a trailing run of `s` (Python `s.endswith(p)`). -/
def strEndsWith (s p : String) : Bool := listIsStartOf p.data.reverse s.data.reverse

/-- `listHasSub s sub`: `sub` occurs contiguously somewhere in `s`. -/
def listHasSub : List Char → List Char → Bool
  | [], sub => sub.isEmpty
  | c :: cs, sub => listIsStartOf sub (c :: cs) || listHasSub cs sub

/-- `strContains s sub`: Python `sub in s`. -/
def strContains (s sub : String) : Bool := listHasSub s.data sub.data

/-- Split at the first occurrence of `sub` in `s`:
`some (before, after)`, or `none` when `sub` does not occur. -/
def splitAtSub : List Char → List Char → Option (List Char × List Char)
  | [], sub => if sub.isEmpty then some ([], []) else none
  | c :: cs, sub =>
    if listIsStartOf sub (c :: cs) then some ([], (c :: cs).drop sub.length)
    else (splitAtSub cs sub).map fun r => (c :: r.1, r.2)

/-- Split at the first occurrence of the character `d`. -/
def splitAtChar : List Char → Char → Option (List Char × List Char)
  | [], _ => none
  | c :: cs, d =>
    if c == d then some ([], cs)
    else (splitAtChar cs d).map fun r => (c :: r.1, r.2)

/-! ### Glob matching

Modelled from the spec (§3): a glob pattern may contain `?` (matches any one
character, including the separator) and `*` (matches zero or more characters,
including the separator); all other characters match themselves,
case-sensitively.  This is the contract of `fnmatch.fnmatchcase` as used by
`ls` on `?`/`*` patterns. -/

/-- All suffixes of a character list, longest first (including itself and `[]`). -/
def suffixes : List Char → List (List Char)
  | [] => [[]]
  | c :: cs => (c :: cs) :: suffixes cs

/-- `globMatch pat s`: does the glob pattern `pat` match all of `s`? -/
def globMatch : List Char → List Char → Bool
  | [], s => s.isEmpty
  | p :: ps, s =>
    if p == '*' then (suffixes s).any fun t => globMatch ps t
    else
      match s with
      | [] => false
      | c :: cs => (p == '?' || p == c) && globMatch ps cs

/-- `fnmatch.fnmatchcase(name, pat)` restricted to `?`/`*` patterns. -/
def fnmatchcase (name pat : String) : Bool := globMatch pat.data name.data

/-- Is `c` a glob wildcard? -/
def isWildcard (c : Char) : Bool := c == '*' || c == '?'

/-- Does the pattern contain a wildcard character? -/
def hasWildcard (s : String) : Bool := s.data.any isWildcard

/-- Modelled from the spec (§6): `GLOB_RE` group 1 — the longest literal
leading run of the pattern before the first wildcard character. -/
def globLiteralLead (s : String) : String :=
  String.mk (s.data.takeWhile fun c => !isWildcard c)

/-! ### URI helpers (modelled from the spec, §6 "External Interfaces") -/

/-- Modelled from the spec: `is_uri` from `mrjob.parse` (called `is_generic_uri`
in §6) — true iff the path begins with a URI scheme followed by `://`. -/
def is_uri (path : String) : Bool :=
  match splitAtSub path.data "://".data with
  | none => false
  | some (schemeCs, _) =>
    !schemeCs.isEmpty &&
      schemeCs.all fun c => c.isAlphanum || c == '+' || c == '-' || c == '.'

/-- Modelled from the spec: `urlparse(uri).scheme` — the scheme of the URI,
the part of the string before the first `':'`. -/
def uriScheme (s : String) : String :=
  String.mk (s.data.takeWhile fun c => c != ':')

/-- Modelled from the spec: `parse_s3_uri` from `mrjob.parse`
(`parse_locator(uri) -> (bucket, key)` in §6) — splits `scheme://bucket/key`
into bucket and key for a recognized object-store scheme; the key may be
empty; the bucket name must be non-empty (§3 invariant).  Returns `none` where
the Python function raises `ValueError`. -/
def parse_s3_uri (uri : String) : Option (String × String) :=
  match splitAtSub uri.data "://".data with
  | none => none
  | some (schemeCs, rest) =>
    if String.mk schemeCs ∈ (["s3", "s3n", "s3a"] : List String) then
      match splitAtChar rest '/' with
      | none => if rest.isEmpty then none else some (String.mk rest, "")
      | some (bkt, key) =>
        if bkt.isEmpty then none else some (String.mk bkt, String.mk key)
    else none

/-- Modelled from the spec (§3): the designated "no location constraint"
region reported by buckets in the oldest/default region
(`_S3_REGION_WITH_NO_LOCATION_CONSTRAINT` from `mrjob.aws`). -/
def _S3_REGION_WITH_NO_LOCATION_CONSTRAINT : String := "us-east-1"

/-! ### `mrjob/fs/s3.py` module-level helpers -/

/-- `_endpoint_url(host_or_uri)`: if non-empty and not already a URI, prepend
`https://`; otherwise pass through as-is (`None` and `''` are both falsy). -/
def _endpoint_url : Option String → Option String
  | none => none
  | some s =>
    if s == "" then some s
    else if is_uri s then some s
    else some ("https://" ++ s)

/-- Python truthiness of an optional string (`None` and `''` are falsy). -/
def optTruthy : Option String → Bool
  | none => false
  | some s => s != ""

/-- `_is_retriable_client_error(ex)`: is the exception from a boto client
retriable?  Mirrors the source: for a `ClientError`, first check whether the
error code contains one of `'Throttl'`, `'RequestExpired'`, `'Timeout'`, then
fall back to comparing the HTTP status code with 505; for a `socket.error`,
compare `args` against the two known connection-failure tuples; anything else
is not retriable. -/
def _is_retriable_client_error (ex : PyErr) : Bool :=
  match ex with
  | .service (.clientError code status) =>
    if (["Throttl", "RequestExpired", "Timeout"] : List String).any
        (fun c => strContains code c) then
      true
    else
      status == some 505
  | .service (.socketError errno msg) =>
    (errno == 104 && msg == "Connection reset by peer") ||
      (errno == 110 && msg == "Connection timed out")
  | _ => false

/-! ### The object-store world

One value of `S3World` fixes the outcome of every remote call the embedded
operations can make.  The listing and the per-object size map are separate so
that the world can also describe an object disappearing between the listing
and a later per-object lookup. -/

/-- Outcomes of the remote calls.  `locs b` is the outcome of
`get_bucket_location(Bucket=b)` (its `LocationConstraint` field, which the
service may report as null); `listings b` is the outcome of enumerating the
keys of bucket `b` (in scan order, before prefix filtering); `sizes` is the
per-object size map consulted by `bucket.get_key` — a missing entry means the
object does not exist. -/
structure S3World where
  locs : List (String × Except PyErr (Option String))
  listings : List (String × Except PyErr (List String))
  sizes : List ((String × String) × Nat)

/-- Outcome of `get_bucket_location` for a bucket; a bucket the world says
nothing about yields the service's not-found error. -/
def S3World.locOutcome (w : S3World) (bucket : String) :
    Except PyErr (Option String) :=
  (w.locs.lookup bucket).getD
    (.error (.service (.clientError "NoSuchBucket" (some 404))))

/-- Outcome of the key enumeration for a bucket (before prefix filtering). -/
def S3World.listingOutcome (w : S3World) (bucket : String) :
    Except PyErr (List String) :=
  (w.listings.lookup bucket).getD
    (.error (.service (.clientError "NoSuchBucket" (some 404))))

/-- The size of the object at `(bucket, key)`, or `none` if it doesn't exist. -/
def S3World.sizeAt (w : S3World) (bucket key : String) : Option Nat :=
  w.sizes.lookup (bucket, key)

/-- `_get_bucket_region(client, bucket_name)`: look up the bucket's location
constraint and translate it to a region name
(`resp['LocationConstraint'] or _S3_REGION_WITH_NO_LOCATION_CONSTRAINT`,
where both a null and an empty constraint are falsy). -/
def _get_bucket_region (w : S3World) (bucket_name : String) :
    Except PyErr String :=
  match w.locOutcome bucket_name with
  | .error e => .error e
  | .ok lc =>
    .ok (if lc.getD "" == "" then _S3_REGION_WITH_NO_LOCATION_CONSTRAINT
         else lc.getD "")

/-! ### The filesystem object -/

/-- Keyword arguments for creating boto3 clients/resources
(`S3Filesystem._client_kwargs`). -/
structure ClientKwargs where
  aws_access_key_id : Option String
  aws_secret_access_key : Option String
  aws_session_token : Option String
  endpoint_url : Option String
  region_name : Option String
  deriving DecidableEq, Repr

/-- The state set up by `S3Filesystem.__init__` and never mutated. -/
structure S3Filesystem where
  _s3_endpoint_url : Option String
  _s3_region : Option String
  _aws_access_key_id : Option String
  _aws_secret_access_key : Option String
  _aws_session_token : Option String
  deriving DecidableEq, Repr

/-- `S3Filesystem.__init__`: stores the credentials, the region hint, and the
normalized endpoint override (`self._s3_endpoint_url = _endpoint_url(s3_endpoint)`). -/
def S3Filesystem.init (aws_access_key_id aws_secret_access_key
    aws_session_token s3_endpoint s3_region : Option String) : S3Filesystem :=
  { _s3_endpoint_url := _endpoint_url s3_endpoint
    _s3_region := s3_region
    _aws_access_key_id := aws_access_key_id
    _aws_secret_access_key := aws_secret_access_key
    _aws_session_token := aws_session_token }

/-- `S3Filesystem._client_kwargs(region_name)`: keyword args for creating
resources or clients.  A truthy `self._s3_endpoint_url` overrides both the
endpoint and the caller-supplied region. -/
def S3Filesystem._client_kwargs (self : S3Filesystem)
    (region_name : Option String) : ClientKwargs :=
  let p : Option String × Option String :=
    if optTruthy self._s3_endpoint_url then
      (self._s3_endpoint_url, self._s3_region)
    else
      (none, region_name)
  { aws_access_key_id := self._aws_access_key_id
    aws_secret_access_key := self._aws_secret_access_key
    aws_session_token := self._aws_session_token
    endpoint_url := p.1
    region_name := p.2 }

/-- The bucket handle returned by `get_bucket`: `resource.Bucket(bucket_name)`
where the resource was built from `_client_kwargs(region_name)`. -/
structure BucketHandle where
  name : String
  client_kwargs : ClientKwargs
  deriving DecidableEq, Repr

/-- `S3Filesystem.get_bucket(bucket_name)`: get the bucket, connecting through
the appropriate endpoint.  The first component is the result; the second
counts how many `get_bucket_location` (location-metadata discovery) calls were
performed — the source performs the lookup unconditionally, once, before any
branching.

The source's `except botocore.exceptions.ClientError:` handler reads the
variable `ex`, which is not bound anywhere in the function (the clause has no
`as ex`), so on any `ClientError` the handler itself raises
`NameError('ex')`.  Any non-`ClientError` exception propagates unchanged.
The model assumes boto3 is installed (otherwise every operation raises
`ImportError` before reaching the network). -/
def S3Filesystem.get_bucket (self : S3Filesystem) (w : S3World)
    (bucket_name : String) : Except PyErr BucketHandle × Nat :=
  -- client = self.make_s3_client(); region_name = _get_bucket_region(...)
  match _get_bucket_region w bucket_name with
  | .error e =>
    match e with
    | .service (.clientError _ _) => (.error (.nameError "ex"), 1)
    | _ => (.error e, 1)
  | .ok region_name =>
    -- resource = self.make_s3_resource(region_name); resource.Bucket(...)
    (.ok { name := bucket_name
           client_kwargs := self._client_kwargs (some region_name) }, 1)

/-- `S3Filesystem.get_s3_key(uri)`: the key object (here: its size) matching
the S3 URI, or `none` if the key doesn't exist.  The
`except boto.exception.S3ResponseError as e:` clause around `get_bucket` only
matches the old boto exception class (re-raising unless `e.status == 404`);
every other exception from `get_bucket` propagates. -/
def S3Filesystem.get_s3_key (self : S3Filesystem) (w : S3World)
    (uri : String) : Except PyErr (Option Nat) :=
  match parse_s3_uri uri with
  | none => .error (.valueError "not an S3 URI")
  | some (bucket_name, key_name) =>
    match (self.get_bucket w bucket_name).1 with
    | .error e =>
      match e with
      | .s3ResponseError status =>
        if status != 404 then .error (.s3ResponseError status) else .ok none
      | _ => .error e
    | .ok _bucket => .ok (w.sizeAt bucket_name key_name)

/-- `S3Filesystem.make_s3_key(uri)`: resolve the bucket and create a key
handle for `uri` (boto's `new_key` builds the handle without contacting the
server); returns the locator the handle writes to. -/
def S3Filesystem.make_s3_key (self : S3Filesystem) (w : S3World)
    (uri : String) : Except PyErr (String × String) :=
  match parse_s3_uri uri with
  | none => .error (.valueError "not an S3 URI")
  | some (bucket_name, key_name) =>
    match (self.get_bucket w bucket_name).1 with
    | .error e => .error e
    | .ok _bucket => .ok (bucket_name, key_name)

/-- The literal base URI the `ls` scan starts from: the pattern cut off at the
first wildcard when `GLOB_RE` matches (i.e. when the pattern contains a
wildcard), the whole pattern otherwise. -/
def scanBaseUri (path_glob : String) : String :=
  if hasWildcard path_glob then globLiteralLead path_glob else path_glob

/-- `S3Filesystem.ls(path_glob)`: recursively list files on S3 — compute the
scheme and the literal base URI (cut off at the first wildcard when the
pattern has one), parse it into bucket and base key, build the
directory-listing glob, resolve the bucket, prefix-scan its keys, and keep
exactly the reconstructed URIs that match the original glob or the directory
glob.  The result list is the sequence the generator yields; an `.error` is
the exception the generator raises while being consumed. -/
def S3Filesystem.ls (self : S3Filesystem) (w : S3World) (path_glob : String) :
    Except PyErr (List String) :=
  let scheme := uriScheme path_glob
  -- glob_match = GLOB_RE.match(path_glob); cut at the first wildcard if any
  let base_uri := scanBaseUri path_glob
  match parse_s3_uri base_uri with
  | none => .error (.valueError "not an S3 URI")
  | some (bucket_name, base_name) =>
    -- allow subdirectories of the path/glob
    let dir_glob := if path_glob != "" && !strEndsWith path_glob "/" then
                      path_glob ++ "/*"
                    else path_glob ++ "*"
    match (self.get_bucket w bucket_name).1 with
    | .error e => .error e
    | .ok _bucket =>
      match w.listingOutcome bucket_name with
      | .error e => .error e
      | .ok keys =>
        .ok ((keys.filter fun k => strStartsWith k base_name).filterMap fun k =>
          let uri := scheme ++ "://" ++ bucket_name ++ "/" ++ k
          if fnmatchcase uri path_glob || fnmatchcase uri dir_glob then
            some uri
          else none)

/-- `S3Filesystem.exists(path_glob)`: does the given path exist?
`paths = self.ls(path_glob)` only constructs a generator object — no code of
`ls` runs inside the `try:` block, so the
`except boto.exception.S3ResponseError:` clause can never fire; the
generator's body runs (and its exceptions are raised) at `any(paths)`,
outside the `try:`.  `any` tests Python truthiness, i.e. non-emptiness of
each yielded string. -/
def S3Filesystem.exists (self : S3Filesystem) (w : S3World)
    (path_glob : String) : Except PyErr Bool :=
  (self.ls w path_glob).map fun paths => paths.any fun u => u != ""

/-- The running sum of `sum(self.get_s3_key(uri).size for uri in ...)`:
`get_s3_key` returning `None` makes `.size` raise `AttributeError`. -/
def S3Filesystem.duSum (self : S3Filesystem) (w : S3World) :
    List String → Nat → Except PyErr Nat
  | [], acc => .ok acc
  | uri :: uris, acc =>
    match self.get_s3_key w uri with
    | .error e => .error e
    | .ok none => .error (.attributeError "NoneType object has no attribute size")
    | .ok (some n) => self.duSum w uris (acc + n)

/-- `S3Filesystem.du(path_glob)`: get the size of all files matching
`path_glob`. -/
def S3Filesystem.du (self : S3Filesystem) (w : S3World) (path_glob : String) :
    Except PyErr Nat :=
  match self.ls w path_glob with
  | .error e => .error e
  | .ok uris => self.duSum w uris 0

/-- `S3Filesystem.touchz(dest)`: make an empty file in the given location;
raises an error if a non-empty file already exists there.  Returns the
outcome together with the world after the call (unchanged when an exception
was raised before the write). -/
def S3Filesystem.touchz (self : S3Filesystem) (w : S3World) (dest : String) :
    Except PyErr Unit × S3World :=
  match self.get_s3_key w dest with
  | .error e => (.error e, w)
  | .ok key =>
    -- if key and key.size != 0: raise OSError(...)
    if (key.map fun n => n != 0).getD false then
      (.error (.osError "Non-empty file already exists"), w)
    else
      -- self.make_s3_key(dest).set_contents_from_string('')
      match self.make_s3_key w dest with
      | .error e => (.error e, w)
      | .ok loc => (.ok (), { w with sizes := (loc, 0) :: w.sizes })

/-! ### Claim-side definitions

These restate parts of the spec's claims in their own words, to be compared
against the embedded source functions. -/

/-- The auxiliary "directory" pattern exactly as claim C2 states it:
`P + '/*'` when `P` does not end in `'/'`, and `P + '*'` when it does. -/
def dirGlobOf (P : String) : String :=
  if strEndsWith P "/" then P ++ "*" else P ++ "/*"

/-- The listing claim C2 makes: from the prefix-scanned keys, keep exactly the
reconstructed URIs that case-sensitively match the original glob or the
auxiliary directory glob. -/
def lsMatches (P bucket_name base_name : String) (keys : List String) :
    List String :=
  (keys.filter fun k => strStartsWith k base_name).filterMap fun k =>
    let uri := uriScheme P ++ "://" ++ bucket_name ++ "/" ++ k
    if fnmatchcase uri P || fnmatchcase uri (dirGlobOf P) then some uri
    else none

/-- The retry classification exactly as claim C4 states it: retryable iff the
error indicates request throttling, an expired request signature, an HTTP 505
status, or is a low-level connection error equal to
`(104, 'Connection reset by peer')` or `(110, 'Connection timed out')`. -/
def claimedRetriable (ex : PyErr) : Bool :=
  match ex with
  | .service (.clientError code status) =>
    strContains code "Throttl" || strContains code "RequestExpired" ||
      status == some 505
  | .service (.socketError errno msg) =>
    (errno == 104 && msg == "Connection reset by peer") ||
      (errno == 110 && msg == "Connection timed out")
  | _ => false

/-- The retry classification of claim C4 amended as the code forces: also
retryable when a service error's code contains `'Timeout'`. -/
def amendedRetriable (ex : PyErr) : Bool :=
  match ex with
  | .service (.clientError code status) =>
    strContains code "Throttl" || strContains code "RequestExpired" ||
      strContains code "Timeout" || status == some 505
  | .service (.socketError errno msg) =>
    (errno == 104 && msg == "Connection reset by peer") ||
      (errno == 110 && msg == "Connection timed out")
  | _ => false

/-! ### Concrete instances used by witnesses and counterexamples -/

/-- A filesystem with no credentials and no endpoint override. -/
def exFs : S3Filesystem := S3Filesystem.init none none none none none

/-- A filesystem with a static endpoint override and a static region hint. -/
def exFsEndpoint : S3Filesystem :=
  S3Filesystem.init none none none (some "example.com") (some "us-mars-1")

/-- A world with one healthy bucket `b` holding keys `a/b`, `a/c`, `d`. -/
def exW : S3World :=
  { locs := [("b", .ok (some "us-west-2"))]
    listings := [("b", .ok ["a/b", "a/c", "d"])]
    sizes := [] }

/-- The bucket handle `exFs.get_bucket exW "b"` resolves to. -/
def exBh : BucketHandle :=
  { name := "b"
    client_kwargs :=
      { aws_access_key_id := none, aws_secret_access_key := none
        aws_session_token := none, endpoint_url := none
        region_name := some "us-west-2" } }

/-- A world where bucket `b` holds exactly the zero-length object `a`. -/
def exWSelf : S3World :=
  { locs := [("b", .ok none)]
    listings := [("b", .ok ["a"])]
    sizes := [(("b", "a"), 0)] }

/-- A world where reading bucket `b`'s location metadata is denied (403). -/
def exW403 : S3World :=
  { locs := [("b", .error (.service (.clientError "AccessDenied" (some 403))))]
    listings := [], sizes := [] }

/-- A world where bucket `b`'s location lookup fails with a 500-class error. -/
def exW500 : S3World :=
  { locs := [("b", .error (.service (.clientError "InternalError" (some 500))))]
    listings := [], sizes := [] }

/-- A world where bucket `nosuch` does not exist: its location lookup fails
with the not-found (404) client error. -/
def exW404 : S3World :=
  { locs := [("nosuch", .error (.service (.clientError "NoSuchBucket" (some 404))))]
    listings := [], sizes := [] }

/-- A world whose bucket `b` resolves fine but whose key enumeration fails
with a not-found (404) client error. -/
def exWListNF : S3World :=
  { locs := [("b", .ok (some "us-west-2"))]
    listings := [("b", .error (.service (.clientError "NoSuchBucket" (some 404))))]
    sizes := [] }

/-- A world whose bucket `b` resolves fine and contains no keys. -/
def exWEmpty : S3World :=
  { locs := [("b", .ok (some "us-west-2"))]
    listings := [("b", .ok [])]
    sizes := [] }

/-- A world with a non-empty object `full` and a zero-byte object `empty`. -/
def exWTouch : S3World :=
  { locs := [("b", .ok (some "r"))], listings := []
    sizes := [(("b", "full"), 5), (("b", "empty"), 0)] }

/-- A world with three objects of sizes 10, 20 and 30 under `x/`. -/
def exWDu : S3World :=
  { locs := [("b", .ok (some "r"))]
    listings := [("b", .ok ["x/p", "x/q", "x/r"])]
    sizes := [(("b", "x/p"), 10), (("b", "x/q"), 20), (("b", "x/r"), 30)] }

/-- The sizes of the three objects of `exWDu`, per URI. -/
def exDuSize (u : String) : Nat :=
  if u = "s3://b/x/p" then 10 else if u = "s3://b/x/q" then 20 else 30

/-! ### Supporting lemmas -/

theorem parse_s3_uri_empty : parse_s3_uri "" = none := rfl

theorem scanBaseUri_empty : scanBaseUri "" = "" := rfl

/-- Unfolding `ls` under the assumptions that the base URI parses, the bucket
resolves, and the key enumeration succeeds: the result is exactly the
claim-side filter `lsMatches`. -/
theorem ls_ok_eq (fs : S3Filesystem) (w : S3World) (P bn kn : String)
    (bh : BucketHandle) (keys : List String)
    (hparse : parse_s3_uri (scanBaseUri P) = some (bn, kn))
    (hbucket : (fs.get_bucket w bn).1 = .ok bh)
    (hlist : w.listingOutcome bn = .ok keys) :
    fs.ls w P = .ok (lsMatches P bn kn keys) := by
  have hPne : P ≠ "" := by
    intro hP
    rw [hP, scanBaseUri_empty, parse_s3_uri_empty] at hparse
    exact Option.noConfusion hparse
  have hPbne : (P != "") = true := bne_iff_ne.mpr hPne
  simp only [S3Filesystem.ls, hparse, hbucket, hlist, hPbne, Bool.true_and,
    lsMatches, dirGlobOf]
  by_cases hE : strEndsWith P "/" = true
  · simp [hE]
  · simp [hE]

/-- A wildcard-free glob pattern matches exactly itself. -/
theorem globMatch_noWild (ps : List Char) (h : ps.any isWildcard = false) :
    ∀ s : List Char, globMatch ps s = true ↔ s = ps := by
  induction ps with
  | nil =>
    intro s
    cases s <;> simp [globMatch]
  | cons p ps ih =>
    intro s
    rw [List.any_cons, Bool.or_eq_false_iff] at h
    obtain ⟨hp, hps⟩ := h
    rw [isWildcard, Bool.or_eq_false_iff] at hp
    obtain ⟨hstar, hq⟩ := hp
    cases s with
    | nil => simp [globMatch, hstar]
    | cons c cs =>
      simp only [globMatch, hstar, Bool.false_eq_true, if_false, hq,
        Bool.false_or, Bool.and_eq_true, beq_iff_eq, ih hps, List.cons.injEq]
      constructor
      · rintro ⟨h1, h2⟩; exact ⟨h1.symm, h2⟩
      · rintro ⟨h1, h2⟩; exact ⟨h1.symm, h2⟩

/-- A wildcard-free pattern `fnmatchcase`-matches only itself. -/
theorem fnmatchcase_noWild (P : String) (h : hasWildcard P = false)
    (uri : String) : fnmatchcase uri P = true ↔ uri = P := by
  rw [fnmatchcase, globMatch_noWild P.data h uri.data]
  constructor
  · exact fun hd => String.ext hd
  · rintro rfl; rfl

/-- Appending to a fixed string on the right is injective. -/
theorem strAppend_cancel (pre a b : String) (h : pre ++ a = pre ++ b) :
    a = b := by
  have hd := congrArg String.data h
  rw [String.data_append pre a, String.data_append pre b] at hd
  exact String.ext (List.append_cancel_left hd)

/-- When every object is found, `duSum` adds all their sizes to the
accumulator. -/
theorem duSum_ok (fs : S3Filesystem) (w : S3World) (sz : String → Nat) :
    ∀ (l : List String) (acc : Nat),
      (∀ u ∈ l, fs.get_s3_key w u = .ok (some (sz u))) →
      fs.duSum w l acc = .ok (acc + (l.map sz).sum) := by
  intro l
  induction l with
  | nil => intro acc _; simp [S3Filesystem.duSum]
  | cons u us ih =>
    intro acc h
    have hu := h u (List.mem_cons_self u us)
    simp only [S3Filesystem.duSum, hu]
    rw [ih (acc + sz u) fun v hv => h v (List.mem_cons_of_mem u hv)]
    simp [Nat.add_assoc]

/-- The first object that the per-object lookup no longer finds aborts
`duSum` with the `AttributeError` that `None.size` raises. -/
theorem duSum_abort (fs : S3Filesystem) (w : S3World) (sz : String → Nat)
    (u : String) (hu : fs.get_s3_key w u = .ok none) :
    ∀ (l1 l2 : List String) (acc : Nat),
      (∀ v ∈ l1, fs.get_s3_key w v = .ok (some (sz v))) →
      fs.duSum w (l1 ++ u :: l2) acc =
        .error (.attributeError "NoneType object has no attribute size") := by
  intro l1
  induction l1 with
  | nil => intro l2 acc _; simp [S3Filesystem.duSum, hu]
  | cons v vs ih =>
    intro l2 acc h
    have hv := h v (List.mem_cons_self v vs)
    simp only [List.cons_append, S3Filesystem.duSum, hv]
    exact ih l2 (acc + sz v) fun x hx => h x (List.mem_cons_of_mem v hx)

/-- C1: claimed — a 403 from the location lookup inside `get_bucket` is
logged and falls back to default-region routing, and any other status
propagates.  The code instead raises `NameError` on every `ClientError`,
because the handler reads the unbound variable `ex`: evaluated both at a 403
(access denied) and at a 500 (should propagate unchanged), `get_bucket`
returns the `NameError`, after exactly one discovery call. -/
theorem C1_get_bucket_clientError_raises :
    exFs.get_bucket exW403 "b" = (.error (.nameError "ex"), 1) ∧
    exFs.get_bucket exW500 "b" = (.error (.nameError "ex"), 1) :=
  ⟨by decide, by decide⟩

/-- C2: for every glob pattern `P` and every set of keys returned by the
prefix scan, `ls(P)` yields exactly the reconstructed URIs that
case-sensitively match `P` or the auxiliary directory pattern
(`P + '/*'` when `P` does not end in `'/'`, `P + '*'` when it does), where
the scan prefix is the portion of `P` before the first wildcard (all of `P`
when `P` has no wildcard). -/
theorem C2_ls_yields_glob_matches (fs : S3Filesystem) (w : S3World)
    (P bn kn : String) (bh : BucketHandle) (keys : List String)
    (hparse : parse_s3_uri (scanBaseUri P) = some (bn, kn))
    (hbucket : (fs.get_bucket w bn).1 = .ok bh)
    (hlist : w.listingOutcome bn = .ok keys) :
    fs.ls w P = .ok (lsMatches P bn kn keys) :=
  ls_ok_eq fs w P bn kn bh keys hparse hbucket hlist

/-- Witness for C2 at a concrete world: listing `s3://b/a` over keys
`a/b`, `a/c`, `d` yields the two URIs under `a/`. -/
theorem C2_ls_yields_glob_matches_witness :
    parse_s3_uri (scanBaseUri "s3://b/a") = some ("b", "a") ∧
    (exFs.get_bucket exW "b").1 = .ok exBh ∧
    exW.listingOutcome "b" = .ok ["a/b", "a/c", "d"] ∧
    exFs.ls exW "s3://b/a" = .ok (lsMatches "s3://b/a" "b" "a" ["a/b", "a/c", "d"]) ∧
    lsMatches "s3://b/a" "b" "a" ["a/b", "a/c", "d"] = ["s3://b/a/b", "s3://b/a/c"] :=
  ⟨by decide, by decide, by decide,
    C2_ls_yields_glob_matches exFs exW "s3://b/a" "b" "a" exBh
      ["a/b", "a/c", "d"] (by decide) (by decide) (by decide),
    by decide⟩

/-- C3: claimed — `exists` returns true iff `ls` yields at least one URI and
swallows not-found lookup errors.  The first half holds (shown at a
non-empty and at an empty listing), but the error handling does not: the
`try` block only constructs the generator, so a not-found `ClientError`
raised while iterating propagates out of `exists` instead of yielding
`False`. -/
theorem C3_exists_propagates_not_found :
    exFs.exists exWListNF "s3://b/x" =
      .error (.service (.clientError "NoSuchBucket" (some 404))) ∧
    exFs.exists exW "s3://b/a" = .ok true ∧
    exFs.exists exWEmpty "s3://b/a" = .ok false :=
  ⟨by decide, by decide, by decide⟩

/-- C4 counterexample: a `ClientError` with code `'RequestTimeout'` (status
400) is neither throttling, nor an expired signature, nor a 505, nor a
socket-level connection error — the claim says it is not retriable — yet
`_is_retriable_client_error` returns true for it. -/
theorem C4_counterexample :
    _is_retriable_client_error
        (.service (.clientError "RequestTimeout" (some 400))) = true ∧
    claimedRetriable
        (.service (.clientError "RequestTimeout" (some 400))) = false :=
  ⟨by decide, by decide⟩

/-- C4 amended: the retry predicate returns true iff the exception is a
service error whose code contains `'Throttl'`, `'RequestExpired'` or
`'Timeout'`, or whose HTTP status is 505, or is one of the two known
connection-failure socket errors; every other exception yields false. -/
theorem C4_retriable_amended (ex : PyErr) :
    _is_retriable_client_error ex = amendedRetriable ex := by
  cases ex with
  | service se =>
    cases se with
    | clientError code status =>
      simp only [_is_retriable_client_error, amendedRetriable, List.any_cons,
        List.any_nil, Bool.or_false]
      cases h1 : strContains code "Throttl" <;>
        cases h2 : strContains code "RequestExpired" <;>
          cases h3 : strContains code "Timeout" <;> simp
    | socketError errno msg => rfl
  | s3ResponseError s => rfl
  | nameError n => rfl
  | attributeError m => rfl
  | osError m => rfl
  | valueError m => rfl

/-- C5: `touchz(path)` raises the conflict error iff an object already exists
at that exact path with nonzero size, leaving the world unchanged in that
case; when no object exists or the existing object has size zero, it
succeeds and afterwards a zero-byte object sits at that path. -/
theorem C5_touchz_conflict_iff (fs : S3Filesystem) (w : S3World)
    (dest b k r : String)
    (hparse : parse_s3_uri dest = some (b, k))
    (hloc : _get_bucket_region w b = .ok r) :
    ((fs.touchz w dest).1 = .error (.osError "Non-empty file already exists") ↔
      ∃ n, w.sizeAt b k = some n ∧ n ≠ 0) ∧
    ((∃ n, w.sizeAt b k = some n ∧ n ≠ 0) → (fs.touchz w dest).2 = w) ∧
    ((w.sizeAt b k = none ∨ w.sizeAt b k = some 0) →
      (fs.touchz w dest).1 = .ok () ∧
        ((fs.touchz w dest).2).sizeAt b k = some 0) := by
  have hgb : (fs.get_bucket w b).1 = .ok ⟨b, fs._client_kwargs (some r)⟩ := by
    simp [S3Filesystem.get_bucket, hloc]
  have hkey : fs.get_s3_key w dest = .ok (w.sizeAt b k) := by
    simp [S3Filesystem.get_s3_key, hparse, hgb]
  have hmk : fs.make_s3_key w dest = .ok (b, k) := by
    simp [S3Filesystem.make_s3_key, hparse, hgb]
  cases hsz : w.sizeAt b k with
  | none =>
    refine ⟨?_, ?_, ?_⟩
    · simp [S3Filesystem.touchz, hkey, hsz, hmk]
    · rintro ⟨n, hn, -⟩; exact Option.noConfusion hn
    · intro _
      constructor
      · simp [S3Filesystem.touchz, hkey, hsz, hmk]
      · have hred : (fs.touchz w dest).2 = { w with sizes := ((b, k), 0) :: w.sizes } := by
          simp [S3Filesystem.touchz, hkey, hsz, hmk]
        rw [hred]
        simp [S3World.sizeAt, List.lookup]
  | some n =>
    by_cases hn : n = 0
    · subst hn
      refine ⟨?_, ?_, ?_⟩
      · simp [S3Filesystem.touchz, hkey, hsz, hmk]
      · rintro ⟨m, hm, hm0⟩
        exact absurd (Option.some.inj hm).symm hm0
      · intro _
        constructor
        · simp [S3Filesystem.touchz, hkey, hsz, hmk]
        · have hred : (fs.touchz w dest).2 = { w with sizes := ((b, k), 0) :: w.sizes } := by
            simp [S3Filesystem.touchz, hkey, hsz, hmk]
          rw [hred]
          simp [S3World.sizeAt, List.lookup]
    · have hbne : (n != 0) = true := bne_iff_ne.mpr hn
      refine ⟨?_, ?_, ?_⟩
      · simp [S3Filesystem.touchz, hkey, hsz, hmk, hbne]
        exact hn
      · intro _
        simp [S3Filesystem.touchz, hkey, hsz, hmk, hbne]
      · rintro (h | h)
        · exact Option.noConfusion h
        · exact absurd (Option.some.inj h) hn

/-- Witness for C5 at concrete worlds: on the non-empty object `full` the
call raises the conflict error and leaves the world unchanged. -/
theorem C5_touchz_conflict_iff_witness :
    parse_s3_uri "s3://b/full" = some ("b", "full") ∧
    _get_bucket_region exWTouch "b" = .ok "r" ∧
    (((exFs.touchz exWTouch "s3://b/full").1 =
        .error (.osError "Non-empty file already exists") ↔
      ∃ n, exWTouch.sizeAt "b" "full" = some n ∧ n ≠ 0) ∧
    ((∃ n, exWTouch.sizeAt "b" "full" = some n ∧ n ≠ 0) →
      (exFs.touchz exWTouch "s3://b/full").2 = exWTouch) ∧
    ((exWTouch.sizeAt "b" "full" = none ∨ exWTouch.sizeAt "b" "full" = some 0) →
      (exFs.touchz exWTouch "s3://b/full").1 = .ok () ∧
        ((exFs.touchz exWTouch "s3://b/full").2).sizeAt "b" "full" = some 0)) :=
  ⟨by decide, by decide,
    C5_touchz_conflict_iff exFs exWTouch "s3://b/full" "b" "full" "r"
      (by decide) (by decide)⟩

/-- C6 counterexample: with a static endpoint override configured,
`get_bucket` still performs one location-metadata discovery call (the claim
says it performs none); the returned handle does use the static endpoint and
region hint. -/
theorem C6_counterexample :
    (exFsEndpoint.get_bucket exW "b").2 = 1 ∧
    (exFsEndpoint.get_bucket exW "b").2 ≠ 0 ∧
    (exFsEndpoint.get_bucket exW "b").1 =
      .ok { name := "b"
            client_kwargs :=
              { aws_access_key_id := none, aws_secret_access_key := none
                aws_session_token := none
                endpoint_url := some "https://example.com"
                region_name := some "us-mars-1" } } :=
  ⟨by decide, by decide, by decide⟩

/-- C6 amended: when a static endpoint override is configured and the
location lookup succeeds, the resolved bucket handle's client uses the
static endpoint together with the static region hint (the discovered region
is discarded) — but `get_bucket` still performs exactly one
location-metadata discovery call rather than skipping it. -/
theorem C6_endpoint_override_amended (fs : S3Filesystem) (w : S3World)
    (b r : String) (hep : optTruthy fs._s3_endpoint_url = true)
    (hloc : _get_bucket_region w b = .ok r) :
    fs.get_bucket w b =
      (.ok { name := b
             client_kwargs :=
               { aws_access_key_id := fs._aws_access_key_id
                 aws_secret_access_key := fs._aws_secret_access_key
                 aws_session_token := fs._aws_session_token
                 endpoint_url := fs._s3_endpoint_url
                 region_name := fs._s3_region } }, 1) := by
  simp [S3Filesystem.get_bucket, hloc, S3Filesystem._client_kwargs, hep]

/-- Witness for C6 amended at the concrete endpoint-override filesystem. -/
theorem C6_endpoint_override_amended_witness :
    optTruthy exFsEndpoint._s3_endpoint_url = true ∧
    _get_bucket_region exW "b" = .ok "us-west-2" ∧
    exFsEndpoint.get_bucket exW "b" =
      (.ok { name := "b"
             client_kwargs :=
               { aws_access_key_id := none, aws_secret_access_key := none
                 aws_session_token := none
                 endpoint_url := some "https://example.com"
                 region_name := some "us-mars-1" } }, 1) :=
  ⟨by decide, by decide, by
    have h := C6_endpoint_override_amended exFsEndpoint exW "b" "us-west-2"
      (by decide) (by decide)
    simpa using h⟩

/-- URIs built by appending distinct keys to a fixed leading string are
distinct, so the filtered reconstruction keeps no duplicates. -/
theorem nodup_filterMap_append (pre : String) (c : String → Bool)
    (l : List String) (hl : l.Nodup) :
    (l.filterMap fun k => if c k then some (pre ++ k) else none).Nodup := by
  refine List.Nodup.filterMap ?_ hl
  intro a a' b hb hb'
  rw [Option.mem_def] at hb hb'
  by_cases ha : c a = true
  · rw [if_pos ha] at hb
    by_cases ha' : c a' = true
    · rw [if_pos ha'] at hb'
      exact strAppend_cancel pre a a'
        ((Option.some.inj hb).trans (Option.some.inj hb').symm)
    · rw [if_neg ha'] at hb'
      exact Option.noConfusion hb'
  · rw [if_neg ha] at hb
    exact Option.noConfusion hb

/-- C7 counterexample: `s3://b/a` has no wildcard, yet over keys
`a/b`, `a/c`, `d` the listing yields two URIs, neither equal to the pattern —
not "zero or exactly one URI equal to P". -/
theorem C7_counterexample :
    hasWildcard "s3://b/a" = false ∧
    exFs.ls exW "s3://b/a" = .ok ["s3://b/a/b", "s3://b/a/c"] ∧
    (["s3://b/a/b", "s3://b/a/c"] : List String) ≠ [] ∧
    (["s3://b/a/b", "s3://b/a/c"] : List String) ≠ ["s3://b/a"] :=
  ⟨by decide, by decide, by decide, by decide⟩

/-- C7 amended: for a wildcard-free pattern `P`, every URI `ls(P)` yields is
either `P` itself or matches the auxiliary directory pattern (the
implicit-directory results under `P`), and — the scanned keys being distinct
— at most one yielded URI equals `P`. -/
theorem C7_no_wildcard_amended (fs : S3Filesystem) (w : S3World)
    (P bn kn : String) (bh : BucketHandle) (keys : List String)
    (hnw : hasWildcard P = false)
    (hparse : parse_s3_uri (scanBaseUri P) = some (bn, kn))
    (hbucket : (fs.get_bucket w bn).1 = .ok bh)
    (hlist : w.listingOutcome bn = .ok keys)
    (hnd : keys.Nodup) :
    fs.ls w P = .ok (lsMatches P bn kn keys) ∧
    (∀ uri ∈ lsMatches P bn kn keys,
        uri = P ∨ fnmatchcase uri (dirGlobOf P) = true) ∧
    (lsMatches P bn kn keys).count P ≤ 1 := by
  refine ⟨ls_ok_eq fs w P bn kn bh keys hparse hbucket hlist, ?_, ?_⟩
  · intro uri hm
    simp only [lsMatches, List.mem_filterMap] at hm
    obtain ⟨k, hk, hf⟩ := hm
    split at hf
    · rename_i hcond
      cases Option.some.inj hf
      rcases Bool.or_eq_true_iff.mp hcond with hA | hB
      · exact Or.inl ((fnmatchcase_noWild P hnw _).mp hA)
      · exact Or.inr hB
    · exact Option.noConfusion hf
  · have hnodup : (lsMatches P bn kn keys).Nodup := by
      rw [lsMatches]
      exact nodup_filterMap_append (uriScheme P ++ "://" ++ bn ++ "/")
        (fun k => fnmatchcase (uriScheme P ++ "://" ++ bn ++ "/" ++ k) P ||
          fnmatchcase (uriScheme P ++ "://" ++ bn ++ "/" ++ k) (dirGlobOf P))
        (keys.filter fun k => strStartsWith k kn) (hnd.filter _)
    exact List.nodup_iff_count_le_one.mp hnodup P

/-- Witness for C7 amended at a concrete world: bucket `b` holds exactly the
zero-length object `a`, and `ls("s3://b/a")` yields exactly `s3://b/a`. -/
theorem C7_no_wildcard_amended_witness :
    hasWildcard "s3://b/a" = false ∧
    parse_s3_uri (scanBaseUri "s3://b/a") = some ("b", "a") ∧
    (exFs.get_bucket exWSelf "b").1 =
      .ok { name := "b"
            client_kwargs :=
              { aws_access_key_id := none, aws_secret_access_key := none
                aws_session_token := none, endpoint_url := none
                region_name := some "us-east-1" } } ∧
    exWSelf.listingOutcome "b" = .ok ["a"] ∧
    (exFs.ls exWSelf "s3://b/a" = .ok (lsMatches "s3://b/a" "b" "a" ["a"]) ∧
      (∀ uri ∈ lsMatches "s3://b/a" "b" "a" ["a"],
          uri = "s3://b/a" ∨ fnmatchcase uri (dirGlobOf "s3://b/a") = true) ∧
      (lsMatches "s3://b/a" "b" "a" ["a"]).count "s3://b/a" ≤ 1) :=
  ⟨by decide, by decide, by decide, by decide,
    C7_no_wildcard_amended exFs exWSelf "s3://b/a" "b" "a"
      { name := "b"
        client_kwargs :=
          { aws_access_key_id := none, aws_secret_access_key := none
            aws_session_token := none, endpoint_url := none
            region_name := some "us-east-1" } }
      ["a"] (by decide) (by decide) (by decide) (by decide) (by decide)⟩

/-- C8: `du(glob)` sums the size of every object yielded by `ls(glob)`, and
an object that `ls` matched but the per-object lookup no longer finds makes
`du` raise the hard error instead of returning a partial sum. -/
theorem C8_du_sums_sizes (fs : S3Filesystem) (w : S3World) (P : String)
    (uris : List String) (sz : String → Nat)
    (hls : fs.ls w P = .ok uris) :
    ((∀ u ∈ uris, fs.get_s3_key w u = .ok (some (sz u))) →
      fs.du w P = .ok (uris.map sz).sum) ∧
    (∀ l1 u l2, uris = l1 ++ u :: l2 →
      (∀ v ∈ l1, fs.get_s3_key w v = .ok (some (sz v))) →
      fs.get_s3_key w u = .ok none →
      fs.du w P =
        .error (.attributeError "NoneType object has no attribute size")) := by
  constructor
  · intro h
    simp only [S3Filesystem.du, hls]
    rw [duSum_ok fs w sz uris 0 h]
    simp
  · intro l1 u l2 hsplit h1 hu
    simp only [S3Filesystem.du, hls, hsplit]
    exact duSum_abort fs w sz u hu l1 l2 0 h1

/-- Witness for C8 at a concrete world with objects of sizes 10, 20, 30:
`du` returns 60. -/
theorem C8_du_sums_sizes_witness :
    exFs.ls exWDu "s3://b/x" = .ok ["s3://b/x/p", "s3://b/x/q", "s3://b/x/r"] ∧
    (∀ u ∈ (["s3://b/x/p", "s3://b/x/q", "s3://b/x/r"] : List String),
      exFs.get_s3_key exWDu u = .ok (some (exDuSize u))) ∧
    exFs.du exWDu "s3://b/x" = .ok 60 :=
  ⟨by decide, by decide, by
    have h := (C8_du_sums_sizes exFs exWDu "s3://b/x"
        ["s3://b/x/p", "s3://b/x/q", "s3://b/x/r"] exDuSize (by decide)).1
        (by decide)
    exact h.trans (by decide)⟩

/-- C9: constructing the filesystem with an empty-string endpoint override
behaves like no override: `_endpoint_url` maps `''` to itself, and
`_client_kwargs` leaves `endpoint_url` as `None` and passes the
caller-supplied region through unchanged, identically to the no-override
construction. -/
theorem C9_empty_endpoint_like_none (ak sk st reg r : Option String) :
    _endpoint_url (some "") = some "" ∧
    (S3Filesystem.init ak sk st (some "") reg)._client_kwargs r =
      { aws_access_key_id := ak, aws_secret_access_key := sk
        aws_session_token := st, endpoint_url := none, region_name := r } ∧
    (S3Filesystem.init ak sk st (some "") reg)._client_kwargs r =
      (S3Filesystem.init ak sk st none reg)._client_kwargs r :=
  ⟨rfl, rfl, rfl⟩

/-- C10: claimed — `get_s3_key` returns `None` when the bucket lookup fails
with a not-found (404) error, re-raising other statuses.  Evaluated at a URI
whose bucket's location lookup fails with 404, the code instead raises
`NameError` (the `except` clause in `get_s3_key` only catches the old boto
`S3ResponseError`, and `get_bucket` itself turns every `ClientError` into a
`NameError`). -/
theorem C10_get_s3_key_bucket_404_raises :
    exFs.get_s3_key exW404 "s3://nosuch/k" = .error (.nameError "ex") ∧
    exFs.get_s3_key exW404 "s3://nosuch/k" ≠ .ok none :=
  ⟨by decide, by decide⟩
